import Mathlib

/-!
Shallow embedding of `graup/es-distributed-lock` (file `lock.go`), an
Elasticsearch-backed best-effort distributed lock.

Modelling conventions:
* `time.Time` and `time.Duration` are `Int` nanoseconds (Go stores both as
  int64 nanoseconds; all comparisons in the code are order comparisons).
* The painless script sent by `Acquire` runs atomically at the store against
  the single document keyed by the lock's id; we embed it as a pure function
  on `Option Doc` (the document, or `none` when absent).  `ScriptedUpsert(true)`
  means that when the document is absent the script runs against the upsert
  document (the serialized lock: fields owner/acquired/expires).
* `DeleteByQuery` used by `release` scans the whole index, so for it the store
  is a `List StoredDoc` (documents carry their `_id`).
* Network nondeterminism (conflict errors, connectivity failures) is an
  explicit input `StoreReply` to each store call; when the reply is `ok` the
  store-side effect is computed deterministically from the embedded script /
  query semantics.
-/

/-- One millisecond in nanoseconds (`1 * time.Millisecond`). -/
def oneMillisecond : Int := 1000000

/-- The persisted lock document `{owner, acquired, expires}` (JSON fields of
`Lock` that are serialized: `Owner`, `Acquired`, `Expires`). -/
structure Doc where
  owner : String
  acquired : Int
  expires : Int
deriving Repr, DecidableEq

/-- A document as seen by `DeleteByQuery`: the persisted fields plus its
`_id` key in the index. -/
structure StoredDoc where
  docId : String
  owner : String
  acquired : Int
  expires : Int
deriving Repr, DecidableEq

/-- The parameters the client attaches to the update script
(`script.Params` in `Acquire`): `now`, `owner`, `expires`, `acquired`. -/
structure ScriptParams where
  now : Int
  owner : String
  expires : Int
  acquired : Int
deriving Repr, DecidableEq

/-- In-memory state of a `Lock` (the mutable fields of the Go struct; the
`client`, `indexName`, `typeName` and `mutex` fields carry no lock state). -/
structure LockState where
  lastTTL : Int
  id : String
  owner : String
  acquired : Int
  expires : Int
  isAcquired : Bool
  isReleased : Bool
  keepAliveActive : Bool
deriving Repr, DecidableEq

/-- `NewLock`: fresh lock bound to the process-wide `clientID` (passed here
explicitly) with all flags false and zero-valued times. -/
def NewLock (clientID id : String) : LockState :=
  { lastTTL := 0
    id := id
    owner := clientID
    acquired := 0
    expires := 0
    isAcquired := false
    isReleased := false
    keepAliveActive := false }

/-- `WithOwner`: overrides the owner. -/
def LockState.withOwner (lock : LockState) (owner : String) : LockState :=
  { lock with owner := owner }

/-- Result field of an Elasticsearch update response. -/
inductive UpdateResult where
  | created
  | updated
  | noop
deriving Repr, DecidableEq

/-- Outcome of the network round-trip itself: delivered fine, version
conflict (`elastic.IsConflict`), or any other failure (code tags the
underlying error). -/
inductive StoreReply where
  | ok
  | conflict
  | failure (code : Nat)
deriving Repr, DecidableEq

/-- Body of the painless script in `Acquire`, run against a source document
`src` (`ctx._source`).  Returns the new source and whether the script set
`ctx.op = "none"`.

```
if (ctx._source.owner != params.owner
      && ZonedDateTime.parse(ctx._source.expires).isAfter(ZonedDateTime.parse(params.now))) {
  ctx.op = "none";
} else {
  ctx._source.expires = params.expires;
  if (ctx._source.owner != params.owner) {
    ctx._source.owner = params.owner;
    ctx._source.acquired = params.acquired;
  }
}
``` -/
def scriptBody (src : Doc) (p : ScriptParams) : Doc × Bool :=
  if src.owner ≠ p.owner ∧ p.now < src.expires then
    (src, true)
  else
    let src1 : Doc := { src with expires := p.expires }
    if src1.owner ≠ p.owner then
      ({ src1 with owner := p.owner, acquired := p.acquired }, false)
    else
      (src1, false)

/-- The atomic store-side operation issued by `Acquire`:
`Update().Id(lock.ID).Script(script).Upsert(lock).ScriptedUpsert(true)`.
When the document is absent the script runs on the upsert document; when it
is present the script runs on it.  `ctx.op = "none"` yields a `noop` result
and no mutation. -/
def scriptedUpsert (existing : Option Doc) (upsert : Doc) (p : ScriptParams) :
    Option Doc × UpdateResult :=
  match existing with
  | none =>
    let r := scriptBody upsert p
    if r.2 then (none, UpdateResult.noop) else (some r.1, UpdateResult.created)
  | some d =>
    let r := scriptBody d p
    if r.2 then (some d, UpdateResult.noop) else (some r.1, UpdateResult.updated)

/-- Errors surfaced by `Acquire`. -/
inductive AcquireError where
  | heldByOther
  | storeError (code : Nat)
deriving Repr, DecidableEq

/-- `Acquire(ctx, ttl)`.  `tAcq` is the first `time.Now()` (stored into
`lock.Acquired`), `tNow` the second one (script param `now`).  `reply` is the
round-trip outcome.  Returns the new lock state, the new store document for
this lock's id, and the error (`none` on success). -/
def LockState.Acquire (lock : LockState) (store : Option Doc)
    (ttl tAcq tNow : Int) (reply : StoreReply) :
    LockState × Option Doc × Option AcquireError :=
  let lock1 : LockState :=
    { lock with lastTTL := ttl, acquired := tAcq, expires := tAcq + ttl }
  let p : ScriptParams :=
    { now := tNow, owner := lock1.owner, expires := lock1.expires,
      acquired := lock1.acquired }
  let upsert : Doc :=
    { owner := lock1.owner, acquired := lock1.acquired, expires := lock1.expires }
  match reply with
  | StoreReply.conflict => (lock1, store, some AcquireError.heldByOther)
  | StoreReply.failure c => (lock1, store, some (AcquireError.storeError c))
  | StoreReply.ok =>
    let r := scriptedUpsert store upsert p
    if r.2 = UpdateResult.noop then
      (lock1, r.1, some AcquireError.heldByOther)
    else
      ({ lock1 with isAcquired := true, isReleased := false }, r.1, none)

/-- Errors surfaced by `release` / `MustRelease`. -/
inductive ReleaseError where
  | alreadyReleased
  | storeError (code : Nat)
deriving Repr, DecidableEq

/-- The bool query of `release`: `_id == lock.ID && owner.keyword == lock.Owner`. -/
def releaseQuery (id owner : String) (d : StoredDoc) : Bool :=
  d.docId = id ∧ d.owner = owner

/-- `release(errorIfNoop)`.  When the lock is locally released it is a no-op
(the store is not contacted, so `reply` is irrelevant on that path).
Otherwise a `DeleteByQuery` removes every document matching the release
query; `resp.Deleted` is the number removed. -/
def LockState.release (lock : LockState) (index : List StoredDoc)
    (errorIfNoop : Bool) (reply : StoreReply) :
    LockState × List StoredDoc × Option ReleaseError :=
  if lock.isReleased then
    if errorIfNoop then
      (lock, index, some ReleaseError.alreadyReleased)
    else
      (lock, index, none)
  else
    match reply with
    | StoreReply.ok =>
      let remaining := index.filter (fun d => ¬ releaseQuery lock.id lock.owner d)
      let deletedCount := (index.filter (releaseQuery lock.id lock.owner)).length
      let lock1 : LockState := { lock with isReleased := true, isAcquired := false }
      if errorIfNoop ∧ deletedCount = 0 then
        (lock1, remaining, some ReleaseError.alreadyReleased)
      else
        (lock1, remaining, none)
    | StoreReply.conflict =>
      (lock, index, some (ReleaseError.storeError 409))
    | StoreReply.failure c =>
      (lock, index, some (ReleaseError.storeError c))

/-- `Release()`: tolerant variant, `release(false)`. -/
def LockState.Release (lock : LockState) (index : List StoredDoc)
    (reply : StoreReply) : LockState × List StoredDoc × Option ReleaseError :=
  lock.release index false reply

/-- `MustRelease()`: strict variant, `release(true)`. -/
def LockState.MustRelease (lock : LockState) (index : List StoredDoc)
    (reply : StoreReply) : LockState × List StoredDoc × Option ReleaseError :=
  lock.release index true reply

/-- Errors surfaced by `KeepAlive`. -/
inductive KeepAliveError where
  | notAcquired
  | invalidWindow
deriving Repr, DecidableEq

/-- `KeepAlive(ctx, beforeExpiry)` evaluated at current time `now`.  Returns
the new state, the delay passed to `time.AfterFunc` when a timer was armed
(`none` when no timer was armed), and the error.  The code:

```
if !lock.isAcquired { return error }
if lock.keepAliveActive { return nil }
if beforeExpiry >= lock.lastTTL { return error }
timeLeft := lock.Expires.Add(-beforeExpiry).Sub(time.Now())
if timeLeft <= 0 { timeLeft = 1 * time.Millisecond }
lock.keepAliveActive = true
time.AfterFunc(timeLeft, ...)
``` -/
def LockState.KeepAlive (lock : LockState) (beforeExpiry now : Int) :
    LockState × Option Int × Option KeepAliveError :=
  if lock.isAcquired = false then
    (lock, none, some KeepAliveError.notAcquired)
  else if lock.keepAliveActive then
    (lock, none, none)
  else if lock.lastTTL ≤ beforeExpiry then
    (lock, none, some KeepAliveError.invalidWindow)
  else
    let timeLeft := lock.expires - beforeExpiry - now
    let timeLeft1 := if timeLeft ≤ 0 then oneMillisecond else timeLeft
    ({ lock with keepAliveActive := true }, some timeLeft1, none)

/-- The `time.AfterFunc` callback armed by `KeepAlive`: clears the active
guard, snapshots `isReleased`, and when not released calls
`Acquire(ctx, lock.lastTTL)` followed by `KeepAlive(ctx, beforeExpiry)`.
`tAcq`/`tNow`/`reply` feed the inner `Acquire`, `now2` the inner `KeepAlive`.
Returns the final state, the store document, and the delay of the re-armed
timer (`none` if none was armed). -/
def LockState.keepAliveFire (lock : LockState) (store : Option Doc)
    (beforeExpiry tAcq tNow now2 : Int) (reply : StoreReply) :
    LockState × Option Doc × Option Int :=
  let lock1 : LockState := { lock with keepAliveActive := false }
  if lock1.isReleased then
    (lock1, store, none)
  else
    let a := lock1.Acquire store lock1.lastTTL tAcq tNow reply
    let k := a.1.KeepAlive beforeExpiry now2
    (k.1, a.2.1, k.2.1)

/-- `IsAcquired()`: `lock.isAcquired && lock.Expires.After(time.Now())`. -/
def LockState.IsAcquired (lock : LockState) (now : Int) : Bool :=
  lock.isAcquired && decide (now < lock.expires)

/-- `IsReleased()`: `lock.isReleased || lock.Expires.Before(time.Now())`. -/
def LockState.IsReleased (lock : LockState) (now : Int) : Bool :=
  lock.isReleased || decide (lock.expires < now)

/-! ## Claim theorems -/

/-- C1: For every call `acquire(ttl)` (here with both client clock reads equal
to `now`, which is how the spec's three-parameter rule set instantiates the
script's four parameters), the store-side conditional upsert implements the
four-way rule set: absent document → created with `owner = new_owner`,
`acquired = now`, `expires = new_expires`; same owner → only `expires`
updated; different owner with unexpired lease → no mutation; different owner
with expired lease → full takeover. -/
theorem acquire_upsert_four_way (lock : LockState) (store : Option Doc)
    (ttl now : Int) :
    (store = none →
      (lock.Acquire store ttl now now StoreReply.ok).2.1 =
        some { owner := lock.owner, acquired := now, expires := now + ttl }) ∧
    (∀ d : Doc, store = some d → d.owner = lock.owner →
      (lock.Acquire store ttl now now StoreReply.ok).2.1 =
        some { d with expires := now + ttl }) ∧
    (∀ d : Doc, store = some d → d.owner ≠ lock.owner → now < d.expires →
      (lock.Acquire store ttl now now StoreReply.ok).2.1 = some d) ∧
    (∀ d : Doc, store = some d → d.owner ≠ lock.owner → ¬ now < d.expires →
      (lock.Acquire store ttl now now StoreReply.ok).2.1 =
        some { owner := lock.owner, acquired := now, expires := now + ttl }) := by
  refine ⟨?_, ?_, ?_, ?_⟩
  · rintro rfl
    simp [LockState.Acquire, scriptedUpsert, scriptBody]
  · rintro d rfl hown
    simp [LockState.Acquire, scriptedUpsert, scriptBody, hown]
  · rintro d rfl hown hexp
    simp [LockState.Acquire, scriptedUpsert, scriptBody, hown, hexp]
  · rintro d rfl hown hexp
    simp [LockState.Acquire, scriptedUpsert, scriptBody, hown, hexp]

/-- Witness for C1: the four rules each evaluated at a concrete call
(owner `a`, id `L`, `ttl = 10`, `now = 5`; pre-existing documents as noted). -/
theorem acquire_upsert_four_way_witness :
    ((NewLock "a" "L").Acquire none 10 5 5 StoreReply.ok).2.1 =
      some { owner := "a", acquired := 5, expires := 15 } ∧
    ((NewLock "a" "L").Acquire (some ⟨"a", 1, 8⟩) 10 5 5 StoreReply.ok).2.1 =
      some { owner := "a", acquired := 1, expires := 15 } ∧
    ((NewLock "a" "L").Acquire (some ⟨"b", 1, 8⟩) 10 5 5 StoreReply.ok).2.1 =
      some { owner := "b", acquired := 1, expires := 8 } ∧
    ((NewLock "a" "L").Acquire (some ⟨"b", 1, 4⟩) 10 5 5 StoreReply.ok).2.1 =
      some { owner := "a", acquired := 5, expires := 15 } := by
  refine ⟨?_, ?_, ?_, ?_⟩
  · simpa using (acquire_upsert_four_way (NewLock "a" "L") none 10 5).1 rfl
  · simpa using
      (acquire_upsert_four_way (NewLock "a" "L") (some ⟨"a", 1, 8⟩) 10 5).2.1
        ⟨"a", 1, 8⟩ rfl rfl
  · simpa using
      (acquire_upsert_four_way (NewLock "a" "L") (some ⟨"b", 1, 8⟩) 10 5).2.2.1
        ⟨"b", 1, 8⟩ rfl (by decide) (by decide)
  · simpa using
      (acquire_upsert_four_way (NewLock "a" "L") (some ⟨"b", 1, 4⟩) 10 5).2.2.2
        ⟨"b", 1, 4⟩ rfl (by decide) (by decide)

/-- C2: `Acquire` returns `heldByOther` exactly on a write conflict or a
scripted no-op; any other store failure is passed through as `storeError`; in
every error case the flags are unchanged while `lastTTL`/`acquired`/`expires`
hold the speculatively computed values; on success `isAcquired := true` and
`isReleased := false`. -/
theorem acquire_error_taxonomy (lock : LockState) (store : Option Doc)
    (ttl tAcq tNow : Int) (reply : StoreReply) :
    ((lock.Acquire store ttl tAcq tNow reply).2.2 = some AcquireError.heldByOther ↔
      reply = StoreReply.conflict ∨
        (reply = StoreReply.ok ∧
          (scriptedUpsert store
            { owner := lock.owner, acquired := tAcq, expires := tAcq + ttl }
            { now := tNow, owner := lock.owner, expires := tAcq + ttl,
              acquired := tAcq }).2 = UpdateResult.noop)) ∧
    (∀ c : Nat, reply = StoreReply.failure c →
      (lock.Acquire store ttl tAcq tNow reply).2.2 =
        some (AcquireError.storeError c)) ∧
    ((lock.Acquire store ttl tAcq tNow reply).2.2 ≠ none →
      (lock.Acquire store ttl tAcq tNow reply).1.isAcquired = lock.isAcquired ∧
      (lock.Acquire store ttl tAcq tNow reply).1.isReleased = lock.isReleased ∧
      (lock.Acquire store ttl tAcq tNow reply).1.lastTTL = ttl ∧
      (lock.Acquire store ttl tAcq tNow reply).1.acquired = tAcq ∧
      (lock.Acquire store ttl tAcq tNow reply).1.expires = tAcq + ttl) ∧
    ((lock.Acquire store ttl tAcq tNow reply).2.2 = none →
      (lock.Acquire store ttl tAcq tNow reply).1.isAcquired = true ∧
      (lock.Acquire store ttl tAcq tNow reply).1.isReleased = false) := by
  cases reply with
  | conflict => simp [LockState.Acquire]
  | failure c => simp [LockState.Acquire]
  | ok =>
    by_cases h :
        (scriptedUpsert store
          { owner := lock.owner, acquired := tAcq, expires := tAcq + ttl }
          { now := tNow, owner := lock.owner, expires := tAcq + ttl,
            acquired := tAcq }).2 = UpdateResult.noop
    · simp [LockState.Acquire, h]
    · simp [LockState.Acquire, h]

/-- Witness for C2: outcomes of `Acquire` at concrete calls (a connectivity
failure, a write conflict, and a clean create). -/
theorem acquire_error_taxonomy_witness :
    ((NewLock "a" "L").Acquire none 10 5 5 (StoreReply.failure 500)).2.2 =
      some (AcquireError.storeError 500) ∧
    ((NewLock "a" "L").Acquire none 10 5 5 (StoreReply.failure 500)).1.isAcquired = false ∧
    ((NewLock "a" "L").Acquire none 10 5 5 StoreReply.conflict).2.2 =
      some AcquireError.heldByOther ∧
    ((NewLock "a" "L").Acquire none 10 5 5 StoreReply.ok).1.isAcquired = true := by
  refine ⟨?_, ?_, ?_, ?_⟩
  · exact (acquire_error_taxonomy (NewLock "a" "L") none 10 5 5
      (StoreReply.failure 500)).2.1 500 rfl
  · have h := (acquire_error_taxonomy (NewLock "a" "L") none 10 5 5
      (StoreReply.failure 500)).2.2.1 (by decide)
    simpa using h.1
  · exact (acquire_error_taxonomy (NewLock "a" "L") none 10 5 5
      StoreReply.conflict).1.mpr (Or.inl rfl)
  · exact ((acquire_error_taxonomy (NewLock "a" "L") none 10 5 5
      StoreReply.ok).2.2.2 (by decide)).1

/-! ### Concrete example states, built through the public operations
(so that every state used in a counterexample is reachable). -/

/-- Owner `a` acquires the absent lock `L` with `ttl = 10` at time `0`:
a successful create. -/
def exHeld : LockState × Option Doc × Option AcquireError :=
  (NewLock "a" "L").Acquire none 10 0 0 StoreReply.ok

/-- The same owner renews at time `5` (same owner, before expiry): a
successful renewal. -/
def exRenew : LockState × Option Doc × Option AcquireError :=
  exHeld.1.Acquire exHeld.2.1 10 5 5 StoreReply.ok

/-- After the acquire, `KeepAlive(beforeExpiry = 2)` is armed at time `0`. -/
def exArmed : LockState × Option Int × Option KeepAliveError :=
  exHeld.1.KeepAlive 2 0

/-- While the renewal chain is armed, the lock is released (store delete
succeeds); `keepAliveActive` stays `true` until the timer fires. -/
def exRelAfterArm : LockState :=
  (exArmed.1.release [⟨"L", "a", 0, 10⟩] false StoreReply.ok).1

/-- C3 counterexample: a successful pure renewal (same owner `a`, renewal
time `5` strictly before expiry `10`) leaves the stored document's
`acquired` at `0` but overwrites the Lock's local `acquired` from `0` to
`5` — the local timestamp does NOT stay unchanged as the claim states. -/
theorem acquire_renewal_local_acquired_cex :
    exHeld.1.isAcquired = true ∧
    exHeld.1.owner = "a" ∧
    exHeld.2.1 = some { owner := "a", acquired := 0, expires := 10 } ∧
    exRenew.2.2 = none ∧
    exRenew.2.1 = some { owner := "a", acquired := 0, expires := 15 } ∧
    exHeld.1.acquired = 0 ∧
    exRenew.1.acquired = 5 := by
  decide

/-- C3 amended: for every successful acquire by an owner that already holds
the lock (same owner, before expiry), the STORED document's `acquired` is
unchanged and only its `expires` advances; the Lock's LOCAL `acquired`
field, however, is overwritten with the call's acquisition timestamp on
every acquire call. -/
theorem acquire_renewal_stored_acquired_unchanged (lock : LockState) (d : Doc)
    (ttl tAcq tNow : Int) (hown : d.owner = lock.owner)
    (_hexp : tNow < d.expires) :
    (lock.Acquire (some d) ttl tAcq tNow StoreReply.ok).2.2 = none ∧
    (lock.Acquire (some d) ttl tAcq tNow StoreReply.ok).2.1 =
      some { d with expires := tAcq + ttl } ∧
    (lock.Acquire (some d) ttl tAcq tNow StoreReply.ok).1.acquired = tAcq := by
  simp [LockState.Acquire, scriptedUpsert, scriptBody, hown]

/-- Witness for the amended C3, at the concrete renewal of `exRenew`. -/
theorem acquire_renewal_stored_acquired_unchanged_witness :
    (exHeld.1.Acquire (some { owner := "a", acquired := 0, expires := 10 })
        10 5 5 StoreReply.ok).2.1 =
      some { owner := "a", acquired := 0, expires := 15 } ∧
    (exHeld.1.Acquire (some { owner := "a", acquired := 0, expires := 10 })
        10 5 5 StoreReply.ok).1.acquired = 5 := by
  have h := acquire_renewal_stored_acquired_unchanged exHeld.1
    { owner := "a", acquired := 0, expires := 10 } 10 5 5 (by decide) (by decide)
  exact ⟨by simpa using h.2.1, h.2.2⟩

/-- In the not-locally-released case with a successful round-trip, `release`
computes exactly: flags flipped, matching documents removed, and the strict
no-op error when nothing matched. -/
theorem release_ok_eq (lock : LockState) (index : List StoredDoc)
    (strict : Bool) (h : lock.isReleased = false) :
    lock.release index strict StoreReply.ok =
      ({ lock with isReleased := true, isAcquired := false },
       index.filter (fun d => ¬ releaseQuery lock.id lock.owner d),
       if strict = true ∧ (index.filter (releaseQuery lock.id lock.owner)).length = 0
       then some ReleaseError.alreadyReleased else none) := by
  simp only [LockState.release, h, Bool.false_eq_true, if_false]
  split_ifs with hc
  · simp [hc]
  · simp [hc]

/-- C4: for every release call on a lock not locally marked released, with
the store round-trip succeeding: the delete removes exactly the documents
matching both this lock's id and owner (so another owner's document for the
same id survives), the local flags become `isReleased = true` and
`isAcquired = false` regardless of the match count, and when zero documents
matched the strict variant returns `AlreadyReleased` while the tolerant one
returns success. -/
theorem release_scoped_delete (lock : LockState) (index : List StoredDoc)
    (strict : Bool) (h : lock.isReleased = false) :
    (∀ d : StoredDoc,
      d ∈ (lock.release index strict StoreReply.ok).2.1 ↔
        d ∈ index ∧ ¬(d.docId = lock.id ∧ d.owner = lock.owner)) ∧
    (∀ d : StoredDoc, d ∈ index → d.owner ≠ lock.owner →
      d ∈ (lock.release index strict StoreReply.ok).2.1) ∧
    (lock.release index strict StoreReply.ok).1.isReleased = true ∧
    (lock.release index strict StoreReply.ok).1.isAcquired = false ∧
    ((index.filter (releaseQuery lock.id lock.owner)).length = 0 →
      (lock.release index strict StoreReply.ok).2.2 =
        if strict = true then some ReleaseError.alreadyReleased else none) := by
  rw [release_ok_eq lock index strict h]
  refine ⟨?_, ?_, rfl, rfl, ?_⟩
  · intro d
    simp [List.mem_filter, releaseQuery]
    tauto
  · intro d hd hown
    simp only [List.mem_filter, releaseQuery]
    simp [hd, hown]
  · intro hzero
    simp [hzero]

/-- Witness for C4: owner `a` releases lock `L` against an index holding its
own document, another owner's document for the same id, and a document for a
different id — only `a`'s `L` document is deleted; and a strict release
against an index with no matching document returns `AlreadyReleased`. -/
theorem release_scoped_delete_witness :
    (exHeld.1.release
        [⟨"L", "a", 0, 10⟩, ⟨"L", "b", 3, 20⟩, ⟨"M", "a", 0, 10⟩]
        true StoreReply.ok).2.1 = [⟨"L", "b", 3, 20⟩, ⟨"M", "a", 0, 10⟩] ∧
    (exHeld.1.release
        [⟨"L", "a", 0, 10⟩, ⟨"L", "b", 3, 20⟩, ⟨"M", "a", 0, 10⟩]
        true StoreReply.ok).1.isReleased = true ∧
    (exHeld.1.release [⟨"L", "b", 3, 20⟩] true StoreReply.ok).2.2 =
      some ReleaseError.alreadyReleased := by
  refine ⟨?_, ?_, ?_⟩
  · have h := release_scoped_delete exHeld.1
      [⟨"L", "a", 0, 10⟩, ⟨"L", "b", 3, 20⟩, ⟨"M", "a", 0, 10⟩] true (by decide)
    have hb := h.2.1 ⟨"L", "b", 3, 20⟩ (by decide) (by decide)
    revert hb
    decide
  · exact (release_scoped_delete exHeld.1
      [⟨"L", "a", 0, 10⟩, ⟨"L", "b", 3, 20⟩, ⟨"M", "a", 0, 10⟩] true (by decide)).2.2.1
  · have h := (release_scoped_delete exHeld.1 [⟨"L", "b", 3, 20⟩] true
      (by decide)).2.2.2.2 (by decide)
    simpa using h

/-- C5 counterexample: in the reachable state `exArmed.1` (acquired with
`ttl = 10`, renewal chain armed), a call `KeepAlive(beforeExpiry = 20)` with
`20 ≥ lastTTL = 10` returns success and NOT `InvalidWindow`: the active-chain
early return precedes the window check. -/
theorem keepalive_window_cex :
    exArmed.1.isAcquired = true ∧
    exArmed.1.keepAliveActive = true ∧
    exArmed.1.lastTTL = 10 ∧
    exArmed.1.KeepAlive 20 0 = (exArmed.1, none, none) := by
  decide

/-- C5 amended: `keepAlive(beforeExpiry)` returns `NotAcquired` whenever the
lock is not marked acquired (checked first, unconditionally); the
`InvalidWindow` error for `beforeExpiry ≥ lastTTL` (with no timer armed and
no state change) applies only when no renewal chain is already active —
an active chain returns success before the window check. -/
theorem keepalive_preconditions (lock : LockState) (b now : Int) :
    (lock.isAcquired = false →
      lock.KeepAlive b now = (lock, none, some KeepAliveError.notAcquired)) ∧
    (lock.isAcquired = true → lock.keepAliveActive = false →
      lock.lastTTL ≤ b →
      lock.KeepAlive b now = (lock, none, some KeepAliveError.invalidWindow)) := by
  constructor
  · intro h
    simp [LockState.KeepAlive, h]
  · intro h1 h2 h3
    simp [LockState.KeepAlive, h1, h2, h3]

/-- Witness for the amended C5: a fresh lock gets `NotAcquired`; the held
lock `exHeld.1` (no active chain, `lastTTL = 10`) gets `InvalidWindow` for
`beforeExpiry = 20`. -/
theorem keepalive_preconditions_witness :
    (NewLock "a" "L").KeepAlive 2 0 =
      (NewLock "a" "L", none, some KeepAliveError.notAcquired) ∧
    exHeld.1.KeepAlive 20 0 = (exHeld.1, none, some KeepAliveError.invalidWindow) := by
  constructor
  · exact (keepalive_preconditions (NewLock "a" "L") 2 0).1 rfl
  · exact (keepalive_preconditions exHeld.1 20 0).2 (by decide) (by decide) (by decide)

/-- C9 counterexample: release while the renewal chain is armed leaves
`keepAliveActive = true` with `isAcquired = false` (state `exRelAfterArm`,
reached by acquire → keepAlive → release); a `keepAlive` call there returns
the `NotAcquired` error, not success as the claim states. -/
theorem keepalive_active_cex :
    exRelAfterArm.keepAliveActive = true ∧
    exRelAfterArm.KeepAlive 2 0 =
      (exRelAfterArm, none, some KeepAliveError.notAcquired) := by
  decide

/-- C9 amended: a `keepAlive` call made while a renewal chain is active AND
the lock is still marked acquired returns success without arming a second
timer and without modifying any state; when the lock is no longer marked
acquired the call instead returns `NotAcquired` (still arming nothing). -/
theorem keepalive_coalesce (lock : LockState) (b now : Int)
    (h1 : lock.isAcquired = true) (h2 : lock.keepAliveActive = true) :
    lock.KeepAlive b now = (lock, none, none) := by
  simp [LockState.KeepAlive, h1, h2]

/-- Witness for the amended C9: in the reachable armed state `exArmed.1`, a
second `keepAlive` call is a pure no-op. -/
theorem keepalive_coalesce_witness :
    exArmed.1.KeepAlive 3 1 = (exArmed.1, none, none) := by
  exact keepalive_coalesce exArmed.1 3 1 (by decide) (by decide)

/-- The per-call error results of `n` consecutive tolerant `Release` calls,
each made from the state and index left by the previous one. -/
def tolerantReleaseResults (lock : LockState) (index : List StoredDoc)
    (reply : StoreReply) : Nat → List (Option ReleaseError)
  | 0 => []
  | Nat.succ n =>
    (lock.Release index reply).2.2 ::
      tolerantReleaseResults (lock.Release index reply).1
        (lock.Release index reply).2.1 reply n

/-- C7: on a lock locally marked released, tolerant `Release` performs no
store operation (state and index unchanged, for every possible store reply)
and returns success, hence any number of consecutive tolerant releases all
return no error; strict `MustRelease` instead returns `AlreadyReleased`. -/
theorem release_already_released_idempotent (lock : LockState)
    (h : lock.isReleased = true) :
    (∀ (index : List StoredDoc) (reply : StoreReply),
      lock.Release index reply = (lock, index, none)) ∧
    (∀ (index : List StoredDoc) (reply : StoreReply),
      lock.MustRelease index reply =
        (lock, index, some ReleaseError.alreadyReleased)) ∧
    (∀ (index : List StoredDoc) (reply : StoreReply) (n : Nat),
      ∀ e ∈ tolerantReleaseResults lock index reply n, e = none) := by
  have hrel : ∀ (index : List StoredDoc) (reply : StoreReply),
      lock.Release index reply = (lock, index, none) := by
    intro index reply
    simp [LockState.Release, LockState.release, h]
  refine ⟨hrel, ?_, ?_⟩
  · intro index reply
    simp [LockState.MustRelease, LockState.release, h]
  · intro index reply n
    induction n with
    | zero => simp [tolerantReleaseResults]
    | succ n ih =>
      simp only [tolerantReleaseResults, hrel index reply]
      intro e he
      rcases List.mem_cons.mp he with h1 | h2
      · exact h1
      · exact ih e h2

/-- Witness for C7: the released state `exRelAfterArm`, with three
consecutive tolerant releases all returning no error and a strict release
returning `AlreadyReleased`. -/
theorem release_already_released_idempotent_witness :
    exRelAfterArm.Release [] StoreReply.ok = (exRelAfterArm, [], none) ∧
    exRelAfterArm.MustRelease [] StoreReply.ok =
      (exRelAfterArm, [], some ReleaseError.alreadyReleased) ∧
    ∀ e ∈ tolerantReleaseResults exRelAfterArm [] StoreReply.ok 3, e = none := by
  refine ⟨?_, ?_, ?_⟩
  · exact (release_already_released_idempotent exRelAfterArm (by decide)).1 []
      StoreReply.ok
  · exact (release_already_released_idempotent exRelAfterArm (by decide)).2.1 []
      StoreReply.ok
  · exact (release_already_released_idempotent exRelAfterArm (by decide)).2.2 []
      StoreReply.ok 3

/-- The state reached by acquiring the absent lock `L` with `ttl = 5` at
time `0`: `expires = 5`, not released. -/
def exBound : LockState :=
  ((NewLock "a" "L").Acquire none 5 0 0 StoreReply.ok).1

/-- C8 counterexample: at the boundary instant where the current time equals
`expires` (state `exBound` with `expires = 5`, queried at `now = 5`),
`IsReleased` returns `false`, not `true` as the claim states: the code uses
`Expires.Before(now)`, which is strict. -/
theorem status_query_boundary_cex :
    exBound.isReleased = false ∧
    exBound.expires = 5 ∧
    exBound.IsReleased 5 = false := by
  decide

/-- C8 amended: `isAcquired()` returns true iff the local acquired flag is
set and `expires` is strictly after the current time; `isReleased()` returns
true iff the local released flag is set or `expires` is strictly BEFORE the
current time (at the boundary instant `expires = now`, `isReleased()` is
false unless the flag is set). -/
theorem status_queries_spec (lock : LockState) (now : Int) :
    (lock.IsAcquired now = true ↔ lock.isAcquired = true ∧ now < lock.expires) ∧
    (lock.IsReleased now = true ↔ lock.isReleased = true ∨ lock.expires < now) := by
  constructor
  · simp [LockState.IsAcquired]
  · simp [LockState.IsReleased]

/-- C6: when `KeepAlive` arms a timer, its delay is the time from `now`
until `expires - beforeExpiry`, replaced by the minimum positive delay of
one millisecond when that instant has already passed (so every armed delay
is positive); when the timer fires, the active guard is cleared and the
released flag is checked: if released, nothing else happens (no renewal, no
re-arm); if not released, `Acquire` runs with the stored `lastTTL` and then
`KeepAlive` is re-invoked with the same `beforeExpiry`, whatever the outcome
(`reply`) of the renewal was. -/
theorem keepalive_delay_and_fire (lock : LockState) (store : Option Doc)
    (b now tAcq tNow now2 : Int) (reply : StoreReply) :
    (lock.isAcquired = true → lock.keepAliveActive = false →
      b < lock.lastTTL →
      lock.KeepAlive b now =
        ({ lock with keepAliveActive := true },
         some (if lock.expires - b - now ≤ 0 then oneMillisecond
               else lock.expires - b - now),
         none)) ∧
    (∀ dl : Int, (lock.KeepAlive b now).2.1 = some dl → 0 < dl) ∧
    (lock.isReleased = true →
      lock.keepAliveFire store b tAcq tNow now2 reply =
        ({ lock with keepAliveActive := false }, store, none)) ∧
    (lock.isReleased = false →
      lock.keepAliveFire store b tAcq tNow now2 reply =
        (((({ lock with keepAliveActive := false }).Acquire store lock.lastTTL
              tAcq tNow reply).1.KeepAlive b now2).1,
         (({ lock with keepAliveActive := false }).Acquire store lock.lastTTL
              tAcq tNow reply).2.1,
         ((({ lock with keepAliveActive := false }).Acquire store lock.lastTTL
              tAcq tNow reply).1.KeepAlive b now2).2.1)) := by
  refine ⟨?_, ?_, ?_, ?_⟩
  · intro h1 h2 h3
    have h3' : ¬ lock.lastTTL ≤ b := not_le.mpr h3
    simp [LockState.KeepAlive, h1, h2, h3']
  · intro dl
    unfold LockState.KeepAlive
    split_ifs with h1 h2 h3
    · simp
    · simp
    · simp
    · simp only [Option.some_inj]
      intro hd
      subst hd
      split_ifs with h4
      · simp [oneMillisecond]
      · omega
  · intro h
    simp [LockState.keepAliveFire, h]
  · intro h
    simp [LockState.keepAliveFire, h]

/-- Witness for C6: at the held state `exHeld.1` (`expires = 10`,
`lastTTL = 10`): arming at `now = 0` with `beforeExpiry = 2` yields delay
`8`; arming at `now = 9` yields the clamped one-millisecond delay; firing in
the released state `exRelAfterArm` only clears the guard; firing in the
armed state `exArmed.1` with a failing renewal still re-invokes `KeepAlive`
(re-arming a timer). -/
theorem keepalive_delay_and_fire_witness :
    exHeld.1.KeepAlive 2 0 =
      ({ exHeld.1 with keepAliveActive := true }, some 8, none) ∧
    exHeld.1.KeepAlive 2 9 =
      ({ exHeld.1 with keepAliveActive := true }, some oneMillisecond, none) ∧
    (0 : Int) < 8 ∧
    exRelAfterArm.keepAliveFire (some ⟨"a", 0, 10⟩) 2 8 8 8 StoreReply.ok =
      ({ exRelAfterArm with keepAliveActive := false }, some ⟨"a", 0, 10⟩, none) ∧
    exArmed.1.keepAliveFire (some ⟨"a", 0, 10⟩) 2 8 8 8 (StoreReply.failure 500) =
      (((({ exArmed.1 with keepAliveActive := false }).Acquire (some ⟨"a", 0, 10⟩)
            exArmed.1.lastTTL 8 8 (StoreReply.failure 500)).1.KeepAlive 2 8).1,
       (({ exArmed.1 with keepAliveActive := false }).Acquire (some ⟨"a", 0, 10⟩)
            exArmed.1.lastTTL 8 8 (StoreReply.failure 500)).2.1,
       ((({ exArmed.1 with keepAliveActive := false }).Acquire (some ⟨"a", 0, 10⟩)
            exArmed.1.lastTTL 8 8 (StoreReply.failure 500)).1.KeepAlive 2 8).2.1) := by
  refine ⟨?_, ?_, ?_, ?_, ?_⟩
  · have h := (keepalive_delay_and_fire exHeld.1 none 2 0 0 0 0 StoreReply.ok).1
      (by decide) (by decide) (by decide)
    simpa using h
  · have h := (keepalive_delay_and_fire exHeld.1 none 2 9 0 0 0 StoreReply.ok).1
      (by decide) (by decide) (by decide)
    simpa using h
  · exact (keepalive_delay_and_fire exHeld.1 none 2 0 0 0 0 StoreReply.ok).2.1 8
      (by decide)
  · exact (keepalive_delay_and_fire exRelAfterArm (some ⟨"a", 0, 10⟩) 2 0 8 8 8
      StoreReply.ok).2.2.1 (by decide)
  · exact (keepalive_delay_and_fire exArmed.1 (some ⟨"a", 0, 10⟩) 2 0 8 8 8
      (StoreReply.failure 500)).2.2.2 (by decide)

/-- One invocation of a public operation on a `Lock`, together with the
environment it observes (store contents, clock readings, round-trip
outcome). -/
inductive Op where
  | acquireOp (store : Option Doc) (ttl tAcq tNow : Int) (reply : StoreReply)
  | releaseOp (index : List StoredDoc) (strict : Bool) (reply : StoreReply)
  | keepAliveOp (beforeExpiry now : Int)
  | fireOp (store : Option Doc) (beforeExpiry tAcq tNow now2 : Int)
      (reply : StoreReply)
  | isAcquiredOp (now : Int)
  | isReleasedOp (now : Int)

/-- Effect of one operation on the local lock state (the status queries do
not mutate it). -/
def stepOp (s : LockState) : Op → LockState
  | Op.acquireOp store ttl tAcq tNow reply =>
    (s.Acquire store ttl tAcq tNow reply).1
  | Op.releaseOp index strict reply => (s.release index strict reply).1
  | Op.keepAliveOp b now => (s.KeepAlive b now).1
  | Op.fireOp store b tAcq tNow now2 reply =>
    (s.keepAliveFire store b tAcq tNow now2 reply).1
  | Op.isAcquiredOp _ => s
  | Op.isReleasedOp _ => s

/-- The lock state after a sequence of operations. -/
def runOps (s : LockState) (ops : List Op) : LockState :=
  ops.foldl stepOp s

/-- `Acquire` either leaves both flags unchanged (error paths) or sets them
to acquired-and-not-released (success). -/
theorem acquire_flags (s : LockState) (store : Option Doc)
    (ttl tAcq tNow : Int) (reply : StoreReply) :
    ((s.Acquire store ttl tAcq tNow reply).1.isAcquired = s.isAcquired ∧
     (s.Acquire store ttl tAcq tNow reply).1.isReleased = s.isReleased) ∨
    ((s.Acquire store ttl tAcq tNow reply).1.isAcquired = true ∧
     (s.Acquire store ttl tAcq tNow reply).1.isReleased = false) := by
  cases reply with
  | conflict => left; simp [LockState.Acquire]
  | failure c => left; simp [LockState.Acquire]
  | ok =>
    by_cases hn :
        (scriptedUpsert store
          { owner := s.owner, acquired := tAcq, expires := tAcq + ttl }
          { now := tNow, owner := s.owner, expires := tAcq + ttl,
            acquired := tAcq }).2 = UpdateResult.noop
    · left; simp [LockState.Acquire, hn]
    · right; simp [LockState.Acquire, hn]

/-- `release` either leaves both flags unchanged or sets them to
released-and-not-acquired. -/
theorem release_flags (s : LockState) (index : List StoredDoc)
    (strict : Bool) (reply : StoreReply) :
    ((s.release index strict reply).1.isAcquired = s.isAcquired ∧
     (s.release index strict reply).1.isReleased = s.isReleased) ∨
    ((s.release index strict reply).1.isAcquired = false ∧
     (s.release index strict reply).1.isReleased = true) := by
  by_cases h : s.isReleased = true
  · left
    cases strict <;> simp [LockState.release, h]
  · have h' : s.isReleased = false := by simpa using h
    cases reply with
    | conflict => left; simp [LockState.release, h']
    | failure c => left; simp [LockState.release, h']
    | ok =>
      right
      rw [release_ok_eq s index strict h']
      simp

/-- `KeepAlive` never changes the acquired/released flags. -/
theorem keepAlive_flags (s : LockState) (b now : Int) :
    (s.KeepAlive b now).1.isAcquired = s.isAcquired ∧
    (s.KeepAlive b now).1.isReleased = s.isReleased := by
  unfold LockState.KeepAlive
  split_ifs <;> simp

/-- The acquired/released flags are never simultaneously true. -/
def flagInv (s : LockState) : Prop :=
  ¬(s.isAcquired = true ∧ s.isReleased = true)

/-- `Acquire` preserves the flag invariant. -/
theorem flagInv_acquire (s : LockState) (store : Option Doc)
    (ttl tAcq tNow : Int) (reply : StoreReply) (h : flagInv s) :
    flagInv (s.Acquire store ttl tAcq tNow reply).1 := by
  rcases acquire_flags s store ttl tAcq tNow reply with ⟨h1, h2⟩ | ⟨h1, h2⟩
  · simp only [flagInv, h1, h2]; exact h
  · simp [flagInv, h1, h2]

/-- `release` preserves the flag invariant. -/
theorem flagInv_release (s : LockState) (index : List StoredDoc)
    (strict : Bool) (reply : StoreReply) (h : flagInv s) :
    flagInv (s.release index strict reply).1 := by
  rcases release_flags s index strict reply with ⟨h1, h2⟩ | ⟨h1, h2⟩
  · simp only [flagInv, h1, h2]; exact h
  · simp [flagInv, h1, h2]

/-- `KeepAlive` preserves the flag invariant. -/
theorem flagInv_keepAlive (s : LockState) (b now : Int) (h : flagInv s) :
    flagInv (s.KeepAlive b now).1 := by
  rcases keepAlive_flags s b now with ⟨h1, h2⟩
  simp only [flagInv, h1, h2]
  exact h

/-- Every operation preserves the flag invariant. -/
theorem stepOp_flagInv (s : LockState) (op : Op) (h : flagInv s) :
    flagInv (stepOp s op) := by
  cases op with
  | acquireOp store ttl tAcq tNow reply =>
    exact flagInv_acquire s store ttl tAcq tNow reply h
  | releaseOp index strict reply =>
    exact flagInv_release s index strict reply h
  | keepAliveOp b now =>
    exact flagInv_keepAlive s b now h
  | fireOp store b tAcq tNow now2 reply =>
    simp only [stepOp, LockState.keepAliveFire]
    have hguard : flagInv { s with keepAliveActive := false } := by
      simpa [flagInv] using h
    split_ifs with h1
    · exact hguard
    · exact flagInv_keepAlive _ b now2
        (flagInv_acquire _ store _ tAcq tNow reply hguard)
  | isAcquiredOp now => simpa [flagInv, stepOp] using h
  | isReleasedOp now => simpa [flagInv, stepOp] using h

/-- The flag invariant holds after any operation sequence from any state
satisfying it. -/
theorem runOps_flagInv (ops : List Op) (s : LockState) (h : flagInv s) :
    flagInv (runOps s ops) := by
  induction ops generalizing s with
  | nil => simpa [runOps] using h
  | cons op ops ih =>
    simp only [runOps, List.foldl_cons]
    exact ih (stepOp s op) (stepOp_flagInv s op h)

/-- C10: a freshly constructed lock has both flags false, after every
sequence of acquire / release / keepAlive / timer-fire / status-query
operations the internal flags `isAcquired` and `isReleased` are never both
true, and consequently `isAcquired()` and `isReleased()` never both return
true at the same instant. -/
theorem newLock_flags_never_both (clientID id : String) (ops : List Op)
    (now : Int) :
    (NewLock clientID id).isAcquired = false ∧
    (NewLock clientID id).isReleased = false ∧
    ¬((runOps (NewLock clientID id) ops).isAcquired = true ∧
      (runOps (NewLock clientID id) ops).isReleased = true) ∧
    ¬((runOps (NewLock clientID id) ops).IsAcquired now = true ∧
      (runOps (NewLock clientID id) ops).IsReleased now = true) := by
  have hinv : flagInv (runOps (NewLock clientID id) ops) := by
    apply runOps_flagInv
    simp [flagInv, NewLock]
  refine ⟨rfl, rfl, hinv, ?_⟩
  rintro ⟨ha, hr⟩
  set t := runOps (NewLock clientID id) ops with ht
  have h1 : t.isAcquired = true ∧ now < t.expires := by
    simpa [LockState.IsAcquired] using ha
  have h2 : t.isReleased = true ∨ t.expires < now := by
    simpa [LockState.IsReleased] using hr
  rcases h2 with h2 | h2
  · exact hinv ⟨h1.1, h2⟩
  · omega

/-- Witness for C10: concrete run — construct, acquire successfully, arm
keep-alive, release; the flags are never both true, nor are the two status
queries at instant `3`. -/
theorem newLock_flags_never_both_witness :
    (NewLock "a" "L").isAcquired = false ∧
    (NewLock "a" "L").isReleased = false ∧
    ¬((runOps (NewLock "a" "L")
        [Op.acquireOp none 10 0 0 StoreReply.ok, Op.keepAliveOp 2 0,
         Op.releaseOp [⟨"L", "a", 0, 10⟩] false StoreReply.ok]).isAcquired = true ∧
      (runOps (NewLock "a" "L")
        [Op.acquireOp none 10 0 0 StoreReply.ok, Op.keepAliveOp 2 0,
         Op.releaseOp [⟨"L", "a", 0, 10⟩] false StoreReply.ok]).isReleased = true) ∧
    ¬((runOps (NewLock "a" "L")
        [Op.acquireOp none 10 0 0 StoreReply.ok, Op.keepAliveOp 2 0,
         Op.releaseOp [⟨"L", "a", 0, 10⟩] false StoreReply.ok]).IsAcquired 3 = true ∧
      (runOps (NewLock "a" "L")
        [Op.acquireOp none 10 0 0 StoreReply.ok, Op.keepAliveOp 2 0,
         Op.releaseOp [⟨"L", "a", 0, 10⟩] false StoreReply.ok]).IsReleased 3 = true) :=
  newLock_flags_never_both "a" "L"
    [Op.acquireOp none 10 0 0 StoreReply.ok, Op.keepAliveOp 2 0,
     Op.releaseOp [⟨"L", "a", 0, 10⟩] false StoreReply.ok] 3
